import Mathlib

/-! Verification development for the SETools policy symbol model and
type-enforcement rule query GUI glue.

Part 1 embeds `src/setools/policyrep/initsid.py` (the initial-SID factory
and the `InitialSID` symbol wrapper).  Part 2 embeds
`src/setoolsgui/apol/terulequery.py` (criterion assignment handlers, the
`run` dispatcher and the `ResultsUpdater.update` result loop).

External collaborators (the qpol raw-handle provider, the `TERuleQuery`
engine, the regular-expression compiler) are not part of the two source
files; they are modelled from the specification, with a doc comment
starting `Modelled from the spec:` on each such definition.
-/

set_option maxHeartbeats 1000000

namespace Setools

/-- Modelled from the spec: a security context, the 4-tuple
(user, role, type, optional MLS range); `context.py` is not part of the
given sources.  The MLS range is kept optional as an `Option String`. -/
structure Context where
  user : String
  role : String
  type : String
  range : Option String
  deriving DecidableEq, Repr

/-- Modelled from the spec: the stable string rendering of a context,
`user:role:type` with the optional range appended after one more colon. -/
def Context.render (c : Context) : String :=
  match c.range with
  | none => c.user ++ ":" ++ c.role ++ ":" ++ c.type
  | some r => c.user ++ ":" ++ c.role ++ ":" ++ c.type ++ ":" ++ r

/-- Modelled from the spec: a raw initial-SID handle produced by the
external qpol layer.  The raw handle exposes the SID's name and its bound
context (spec section 6: raw handles expose look-up data consumed by the
symbol model). -/
structure qpol_isid_t where
  name : String
  ctx : Context
  deriving DecidableEq, Repr

/-- Modelled from the spec: the loaded policy database, restricted to the
data the initial-SID factory consumes — a policy identity and the table of
the policy's real initial-SID raw handles, in definition order. -/
structure Policy where
  pid : Nat
  isids : List qpol_isid_t
  deriving DecidableEq, Repr

/-- Modelled from the spec: `resolve(initial_sid, name)` of the raw
provider — constructing `qpol_isid_t(policy, name)` in Python returns the
raw handle for `name` or raises `ValueError` when no initial SID of that
name exists in the policy ("not found"). -/
def Policy.isidLookup (p : Policy) (nm : String) : Option qpol_isid_t :=
  p.isids.find? (fun h => h.name == nm)

/-- The duck-typed `symbol` argument of `initialsid_factory`, made a tagged
union (spec design note): either a raw qpol initial-SID handle — the
`isinstance(symbol, qpol.qpol_isid_t)` branch — or a primitive name
string handed to `qpol.qpol_isid_t(policy, symbol)` for resolution. -/
inductive FactorySymbol where
  | raw : qpol_isid_t → FactorySymbol
  | name : String → FactorySymbol
  deriving DecidableEq, Repr

/-- The `setools.policyrep.exception` errors reachable from
`initialsid_factory`: `InvalidInitialSid` carrying its message. -/
inductive SymbolError where
  | invalidInitialSid : String → SymbolError
  deriving DecidableEq, Repr

/-- The `InitialSID` wrapper object of `initsid.py`.  `instanceId` records
Python object identity: every evaluation of the class constructor
`InitialSID(policy, qpol_symbol)` allocates a fresh object, so the factory
threads an allocation counter and stamps each constructed wrapper with it.
`policyId` and `qpol_symbol` are the constructor's two stored arguments. -/
structure InitialSID where
  instanceId : Nat
  policyId : Nat
  qpol_symbol : qpol_isid_t
  deriving DecidableEq, Repr

/-- Embedding of `initialsid_factory(policy, symbol)` (initsid.py lines
25–34).  A raw `qpol_isid_t` input is wrapped immediately; otherwise the
name is resolved via `qpol.qpol_isid_t(policy, symbol)` and a `ValueError`
("not found") is turned into `InvalidInitialSid` with the message
built by `"{0} is not a valid initial sid".format(symbol)`.  The `fresh`
argument is the allocation counter for object identity; each successful
call constructs one `InitialSID` and advances the counter. -/
def initialsid_factory (policy : Policy) (symb : FactorySymbol) (fresh : Nat) :
    Except SymbolError (InitialSID × Nat) :=
  match symb with
  | .raw h => .ok (⟨fresh, policy.pid, h⟩, fresh + 1)
  | .name s =>
    match policy.isidLookup s with
    | some h => .ok (⟨fresh, policy.pid, h⟩, fresh + 1)
    | none => .error (.invalidInitialSid (s ++ " is not a valid initial sid"))

/-- Modelled from the spec: `PolicySymbol.__str__` (symbol.py is not in
the given sources) — the stable string rendering of a symbol is its name,
obtained from the raw handle. -/
def InitialSID.str (s : InitialSID) : String :=
  s.qpol_symbol.name

/-- Embedding of the `InitialSID.context` property:
`context_factory(self.policy, self.qpol_symbol.context(self.policy))` —
the context bound to this SID's raw handle. -/
def InitialSID.context (s : InitialSID) : Context :=
  s.qpol_symbol.ctx

/-- Embedding of `InitialSID.statement`:
`"sid {0} {1}".format(self, self.context)`. -/
def InitialSID.statement (s : InitialSID) : String :=
  "sid " ++ s.str ++ " " ++ s.context.render

/-- A small concrete policy used for concrete evaluations: two initial
SIDs, `kernel` and `security`. -/
def kernelHandle : qpol_isid_t :=
  ⟨"kernel", ⟨"system_u", "system_r", "kernel_t", none⟩⟩

/-- Raw handle for the `security` initial SID of the demo policy. -/
def securityHandle : qpol_isid_t :=
  ⟨"security", ⟨"system_u", "object_r", "security_t", some "s0"⟩⟩

/-- The demo policy holding `kernel` and `security`. -/
def demoPolicy : Policy :=
  ⟨1, [kernelHandle, securityHandle]⟩

/-- A raw handle that is not an initial SID of `demoPolicy`. -/
def bogusHandle : qpol_isid_t :=
  ⟨"bogus", ⟨"user_u", "user_r", "user_t", none⟩⟩

/-- A policy with no initial SIDs at all. -/
def emptyPolicy : Policy :=
  ⟨2, []⟩

/-- A raw handle (ostensibly from some other policy) that is not an
initial SID of `emptyPolicy`. -/
def strayHandle : qpol_isid_t :=
  ⟨"stray", ⟨"staff_u", "staff_r", "staff_t", none⟩⟩

/-- If `isidLookup` finds a handle for a name, that handle bears the name. -/
theorem isidLookup_name {p : Policy} {nm : String} {h : qpol_isid_t}
    (hres : p.isidLookup nm = some h) : h.name = nm := by
  have := List.find?_some hres
  exact eq_of_beq this

/-- C1 counterexample. The claim asserts that a handle that does not
correspond to a real initial SID in the policy makes `initialsid_factory`
fail with the "invalid initial sid" error.  Concretely: `bogusHandle` is
not among `demoPolicy`'s initial SIDs, yet the factory succeeds and
returns a wrapper around it — the raw-handle branch performs no
validation at all. -/
theorem initialsid_factory_raw_not_validated :
    bogusHandle ∉ demoPolicy.isids ∧
    initialsid_factory demoPolicy (.raw bogusHandle) 0 =
      .ok (⟨0, 1, bogusHandle⟩, 1) := by
  constructor
  · decide
  · rfl

/-- C1 amended. For every *name* input: when resolution fails the factory
raises `InvalidInitialSid` with the message "(name) is not a valid initial
sid" and constructs no `InitialSID` (the allocation counter is untouched);
when the name resolves to a raw handle, the factory returns an
`InitialSID` bound to that policy element.  (A raw-handle input is wrapped
without validation; see the counterexample.) -/
theorem initialsid_factory_name_resolution (p : Policy) (nm : String) (fresh : Nat) :
    match p.isidLookup nm with
    | none => initialsid_factory p (.name nm) fresh =
        .error (.invalidInitialSid (nm ++ " is not a valid initial sid"))
    | some h => initialsid_factory p (.name nm) fresh =
        .ok (⟨fresh, p.pid, h⟩, fresh + 1) := by
  cases hres : p.isidLookup nm with
  | none => simp [initialsid_factory, hres]
  | some h => simp [initialsid_factory, hres]

/-- C4 counterexample. The claim asserts that the factory interns: the
same raw handle yields the same cached instance on every request.  In the
code each call evaluates the `InitialSID` constructor anew: two successive
requests for the name "kernel" allocate two distinct wrapper instances
around the same raw handle. -/
theorem initialsid_factory_no_interning :
    initialsid_factory demoPolicy (.name "kernel") 0 =
      .ok (⟨0, 1, kernelHandle⟩, 1) ∧
    initialsid_factory demoPolicy (.name "kernel") 1 =
      .ok (⟨1, 1, kernelHandle⟩, 2) ∧
    (⟨0, 1, kernelHandle⟩ : InitialSID).qpol_symbol =
      (⟨1, 1, kernelHandle⟩ : InitialSID).qpol_symbol ∧
    (⟨0, 1, kernelHandle⟩ : InitialSID) ≠ (⟨1, 1, kernelHandle⟩ : InitialSID) := by
  refine ⟨rfl, rfl, rfl, ?_⟩
  decide

/-- C4 amended. The factory performs no caching: every successful call
constructs a fresh `InitialSID` wrapper (stamped with the current
allocation counter), so two calls at distinct allocation states return
distinct instances that nevertheless wrap the same raw handle — equal
underlying identity, duplicated wrapper objects. -/
theorem initialsid_factory_fresh_wrapper_per_call (p : Policy) (nm : String)
    (h : qpol_isid_t) (c1 c2 : Nat)
    (hres : p.isidLookup nm = some h) (hne : c1 ≠ c2) :
    initialsid_factory p (.name nm) c1 = .ok (⟨c1, p.pid, h⟩, c1 + 1) ∧
    initialsid_factory p (.name nm) c2 = .ok (⟨c2, p.pid, h⟩, c2 + 1) ∧
    (⟨c1, p.pid, h⟩ : InitialSID).qpol_symbol =
      (⟨c2, p.pid, h⟩ : InitialSID).qpol_symbol ∧
    (⟨c1, p.pid, h⟩ : InitialSID) ≠ (⟨c2, p.pid, h⟩ : InitialSID) := by
  refine ⟨?_, ?_, rfl, ?_⟩
  · simp [initialsid_factory, hres]
  · simp [initialsid_factory, hres]
  · intro hcontra
    exact hne (congrArg InitialSID.instanceId hcontra)

/-- Witness for the amended C4 theorem at a concrete input. -/
theorem initialsid_factory_fresh_wrapper_per_call_witness :
    initialsid_factory demoPolicy (.name "security") 5 =
      .ok (⟨5, 1, securityHandle⟩, 6) ∧
    initialsid_factory demoPolicy (.name "security") 6 =
      .ok (⟨6, 1, securityHandle⟩, 7) ∧
    (⟨5, 1, securityHandle⟩ : InitialSID).qpol_symbol =
      (⟨6, 1, securityHandle⟩ : InitialSID).qpol_symbol ∧
    (⟨5, 1, securityHandle⟩ : InitialSID) ≠ (⟨6, 1, securityHandle⟩ : InitialSID) :=
  initialsid_factory_fresh_wrapper_per_call demoPolicy "security" securityHandle 5 6
    (by decide) (by decide)

/-- C5 counterexample. The claim asserts that any input that is not an
already-wrapped Symbol is resolved against the raw provider, failing
exactly when resolution fails.  A raw `qpol_isid_t` is not a wrapped
Symbol, and `strayHandle` does not resolve in `emptyPolicy` (which has no
initial SIDs at all), yet the factory succeeds instead of failing: the
raw-handle branch never resolves and never fails. -/
theorem initialsid_factory_raw_branch_never_fails :
    strayHandle ∉ emptyPolicy.isids ∧
    emptyPolicy.isidLookup "stray" = none ∧
    initialsid_factory emptyPolicy (.raw strayHandle) 0 =
      .ok (⟨0, 2, strayHandle⟩, 1) := by
  refine ⟨?_, ?_, rfl⟩
  · decide
  · rfl

/-- C5 amended. The factory's input dichotomy is raw-handle versus name,
not wrapped versus raw: a raw `qpol_isid_t` handle is wrapped into a new
`InitialSID` without any validation (it always succeeds), while a
primitive name is resolved against the raw provider and fails with the
kind-specific "invalid initial sid" error exactly when resolution fails. -/
theorem initialsid_factory_input_dichotomy (p : Policy) (i : FactorySymbol)
    (fresh : Nat) :
    match i with
    | .raw h => initialsid_factory p i fresh = .ok (⟨fresh, p.pid, h⟩, fresh + 1)
    | .name s =>
      initialsid_factory p i fresh =
        (match p.isidLookup s with
         | some h => .ok (⟨fresh, p.pid, h⟩, fresh + 1)
         | none => .error (.invalidInitialSid (s ++ " is not a valid initial sid"))) := by
  cases i with
  | raw h => rfl
  | name s => rfl

/-- C7. An `InitialSID` produced by the factory is bound to exactly the
context of its raw handle, and its `statement()` rendering is the
canonical policy-language form: the string "sid ", then the SID's stable
string rendering (its name, which equals the requested name), a space,
and the rendering of its context. -/
theorem initialsid_statement_canonical (p : Policy) (nm : String)
    (h : qpol_isid_t) (fresh : Nat) (hres : p.isidLookup nm = some h) :
    initialsid_factory p (.name nm) fresh = .ok (⟨fresh, p.pid, h⟩, fresh + 1) ∧
    (⟨fresh, p.pid, h⟩ : InitialSID).context = h.ctx ∧
    (⟨fresh, p.pid, h⟩ : InitialSID).statement =
      "sid " ++ nm ++ " " ++ h.ctx.render := by
  refine ⟨?_, rfl, ?_⟩
  · simp [initialsid_factory, hres]
  · have hname : h.name = nm := isidLookup_name hres
    simp [InitialSID.statement, InitialSID.str, InitialSID.context, hname]

/-- Witness for the C7 theorem at a concrete input: the `security` SID of
the demo policy renders to its full `sid` statement. -/
theorem initialsid_statement_canonical_witness :
    initialsid_factory demoPolicy (.name "security") 0 =
      .ok (⟨0, 1, securityHandle⟩, 1) ∧
    (⟨0, 1, securityHandle⟩ : InitialSID).context = securityHandle.ctx ∧
    (⟨0, 1, securityHandle⟩ : InitialSID).statement =
      "sid " ++ "security" ++ " " ++ securityHandle.ctx.render :=
  initialsid_statement_canonical demoPolicy "security" securityHandle 0 (by decide)

end Setools

namespace Apol

/-- Modelled from the spec: one type-enforcement rule as exposed by the
raw provider — a kind tag, source, target, class, a permission-name set
(allow family), an optional single default type (transition family) and
the rule's guarding boolean set. -/
structure TERule where
  ruletype : String
  source : String
  target : String
  tclass : String
  perms : List String
  default : Option String
  boolean : List String
  deriving DecidableEq, Repr

/-- Modelled from the spec: the canonical textual statement of a rule,
e.g. `allow <source> <target>:<class> \x7b <perms> \x7d;` — this models the
Python `str(item)` call of the update loop. -/
def TERule.str (r : TERule) : String :=
  r.ruletype ++ " " ++ r.source ++ " " ++ r.target ++ ":" ++ r.tclass ++
    " \x7b " ++ String.intercalate " " r.perms ++ " \x7d;"

/-- Modelled from the spec: the criteria state of a `TERuleQuery` engine
instance (`setools.TERuleQuery` is not among the given sources).  String
criteria hold the accepted pattern together with their regex/indirect
mode flags; collection criteria hold name lists with their equality
flags. -/
structure TERuleQuery where
  source : String
  source_regex : Bool
  source_indirect : Bool
  target : String
  target_regex : Bool
  target_indirect : Bool
  default : String
  default_regex : Bool
  ruletype : List String
  tclass : List String
  perms : List String
  perms_equal : Bool
  boolean : List String
  boolean_equal : Bool
  deriving DecidableEq, Repr

/-- Modelled from the spec: a string-field criterion match.  `rmatch` is
the external regular-expression engine (`rmatch pat s` holds when the
compiled pattern `pat` matches `s`).  An empty pattern is an unconfigured
criterion and always matches; otherwise regex mode uses `rmatch` and
literal mode uses exact string equality. -/
def strCritMatch (rmatch : String → String → Bool) (pat : String)
    (isRegex : Bool) (field : String) : Bool :=
  if pat.isEmpty then true
  else if isRegex then rmatch pat field
  else pat == field

/-- Modelled from the spec: a string-field criterion with indirect mode.
`expand` supplies the related names of a rule field (the attributes owning
a type, or the member types of an attribute); with `indirect` set the
criterion also matches when any related name matches. -/
def strCritMatchIndirect (rmatch : String → String → Bool)
    (expand : String → List String) (pat : String) (isRegex indirect : Bool)
    (field : String) : Bool :=
  if pat.isEmpty then true
  else
    let base := if isRegex then rmatch pat field else pat == field
    if indirect then
      base || (expand field).any (fun a => if isRegex then rmatch pat a else pat == a)
    else base

/-- Modelled from the spec: a set criterion with an `equal` flag — an
empty configured collection always matches; otherwise `equal = false`
requires the rule's set to contain every configured name (superset
containment) and `equal = true` requires exact set equality. -/
def setCritMatch (crit : List String) (equal : Bool) (fields : List String) : Bool :=
  if crit.isEmpty then true
  else if equal then crit.all fields.contains && fields.all crit.contains
  else crit.all fields.contains

/-- Modelled from the spec: the conjunctive rule predicate — every
configured criterion must independently match (rule kind membership,
source/target with indirect mode, class membership, permission set,
default type, boolean set; a rule with no default type never matches a
configured default criterion). -/
def TERuleQuery.matchRule (rmatch : String → String → Bool)
    (expand : String → List String) (q : TERuleQuery) (r : TERule) : Bool :=
  (q.ruletype.isEmpty || q.ruletype.contains r.ruletype) &&
  strCritMatchIndirect rmatch expand q.source q.source_regex q.source_indirect r.source &&
  strCritMatchIndirect rmatch expand q.target q.target_regex q.target_indirect r.target &&
  (q.tclass.isEmpty || q.tclass.contains r.tclass) &&
  setCritMatch q.perms q.perms_equal r.perms &&
  (match r.default with
   | some d => strCritMatch rmatch q.default q.default_regex d
   | none => q.default.isEmpty) &&
  setCritMatch q.boolean q.boolean_equal r.boolean

/-- Modelled from the spec: `TERuleQuery.results()` — the query engine
streams the policy's rules in native enumeration order and yields exactly
those satisfying the conjunction of all configured criteria. -/
def TERuleQuery.results (rmatch : String → String → Bool)
    (expand : String → List String) (q : TERuleQuery)
    (rules : List TERule) : List TERule :=
  rules.filter (q.matchRule rmatch expand)

/-- Modelled from the spec: assignment `query.source = value`.  The engine
validates at assignment time: in regex mode a pattern the external
compiler rejects (`valid pat = false`) raises a pattern error before the
criterion is updated, so the query state is unchanged on failure; a
literal pattern is always accepted. -/
def TERuleQuery.setSource (valid : String → Bool) (q : TERuleQuery)
    (v : String) : Except String TERuleQuery :=
  if q.source_regex && !valid v then .error ("pattern error: " ++ v)
  else .ok { q with source := v }

/-- Modelled from the spec: assignment `query.target = value`, validated
like the source criterion. -/
def TERuleQuery.setTarget (valid : String → Bool) (q : TERuleQuery)
    (v : String) : Except String TERuleQuery :=
  if q.target_regex && !valid v then .error ("pattern error: " ++ v)
  else .ok { q with target := v }

/-- Modelled from the spec: assignment `query.default = value`, validated
like the source criterion. -/
def TERuleQuery.setDefault (valid : String → Bool) (q : TERuleQuery)
    (v : String) : Except String TERuleQuery :=
  if q.default_regex && !valid v then .error ("pattern error: " ++ v)
  else .ok { q with default := v }

/-- The GUI-side state of `TERuleQueryTab` that the embedded handlers
touch: the wrapped query, the three line-edit texts, the three regex
checkbox states, the seven ruletype checkbox states and the four other
option checkboxes, and the per-field error indication (tooltip text and
red palette, collapsed into one optional error string; `none` is the
cleared state produced by `clear_*_error`). -/
structure TERuleQueryTab where
  query : TERuleQuery
  sourceText : String
  targetText : String
  defaultText : String
  sourceRegexChecked : Bool
  targetRegexChecked : Bool
  defaultRegexChecked : Bool
  allowChecked : Bool
  auditallowChecked : Bool
  neverallowChecked : Bool
  dontauditChecked : Bool
  typeTransitionChecked : Bool
  typeMemberChecked : Bool
  typeChangeChecked : Bool
  sourceIndirectChecked : Bool
  targetIndirectChecked : Bool
  permsEqualChecked : Bool
  boolsEqualChecked : Bool
  sourceError : Option String
  targetError : Option String
  defaultError : Option String
  deriving DecidableEq, Repr

/-- Embedding of `TERuleQueryTab.set_source` (terulequery.py lines
173–179): try `self.query.source = self.source.text()`; on an exception
the handler records the error ("Error: " plus the message, shown as
tooltip and red palette) and leaves the query as it was. -/
def TERuleQueryTab.set_source (valid : String → Bool)
    (t : TERuleQueryTab) : TERuleQueryTab :=
  match t.query.setSource valid t.sourceText with
  | .ok q => { t with query := q }
  | .error e => { t with sourceError := some ("Error: " ++ e) }

/-- Embedding of `TERuleQueryTab.set_source_regex` (lines 181–185):
assign `query.source_regex = state`, run `clear_source_error`, then rerun
`set_source` so the current text is re-validated under the new mode. -/
def TERuleQueryTab.set_source_regex (valid : String → Bool)
    (t : TERuleQueryTab) (state : Bool) : TERuleQueryTab :=
  TERuleQueryTab.set_source valid
    { t with query := { t.query with source_regex := state }, sourceError := none }

/-- Embedding of `TERuleQueryTab.set_target` (lines 193–199). -/
def TERuleQueryTab.set_target (valid : String → Bool)
    (t : TERuleQueryTab) : TERuleQueryTab :=
  match t.query.setTarget valid t.targetText with
  | .ok q => { t with query := q }
  | .error e => { t with targetError := some ("Error: " ++ e) }

/-- Embedding of `TERuleQueryTab.set_target_regex` (lines 201–205). -/
def TERuleQueryTab.set_target_regex (valid : String → Bool)
    (t : TERuleQueryTab) (state : Bool) : TERuleQueryTab :=
  TERuleQueryTab.set_target valid
    { t with query := { t.query with target_regex := state }, targetError := none }

/-- Embedding of `TERuleQueryTab.set_default_type` (lines 246–254): first
`self.query.default_regex = self.default_regex.isChecked()`, then try
`self.query.default = self.default_type.text()` with the same
error-recording except branch. -/
def TERuleQueryTab.set_default_type (valid : String → Bool)
    (t : TERuleQueryTab) : TERuleQueryTab :=
  let t1 := { t with query := { t.query with default_regex := t.defaultRegexChecked } }
  match t1.query.setDefault valid t1.defaultText with
  | .ok q => { t1 with query := q }
  | .error e => { t1 with defaultError := some ("Error: " ++ e) }

/-- Embedding of `TERuleQueryTab.set_default_regex` (lines 256–260): the
handler runs on the checkbox's `toggled(state)` signal (so the checkbox
state equals `state`), assigns `query.default_regex = state`, clears the
error indication and reruns `set_default_type`. -/
def TERuleQueryTab.set_default_regex (valid : String → Bool)
    (t : TERuleQueryTab) (state : Bool) : TERuleQueryTab :=
  TERuleQueryTab.set_default_type valid
    { t with
        defaultRegexChecked := state,
        query := { t.query with default_regex := state },
        defaultError := none }

/-- The per-kind rule counts of the loaded policy consumed by `run`
(`self.policy.allow_count` and friends; the policy object is external). -/
structure PolicyCounts where
  allow_count : Nat
  auditallow_count : Nat
  neverallow_count : Nat
  dontaudit_count : Nat
  type_transition_count : Nat
  type_member_count : Nat
  type_change_count : Nat
  deriving DecidableEq, Repr

/-- Embedding of the `rule_types` accumulation in `TERuleQueryTab.run`
(lines 280–306): starting from the empty list, each of the seven kind
checkboxes appends its kind name in the code's fixed textual order. -/
def TERuleQueryTab.run_rule_types (t : TERuleQueryTab) : List String :=
  let rule_types : List String := []
  let rule_types := if t.allowChecked then rule_types ++ ["allow"] else rule_types
  let rule_types := if t.auditallowChecked then rule_types ++ ["auditallow"] else rule_types
  let rule_types := if t.neverallowChecked then rule_types ++ ["neverallow"] else rule_types
  let rule_types := if t.dontauditChecked then rule_types ++ ["dontaudit"] else rule_types
  let rule_types := if t.typeTransitionChecked then rule_types ++ ["type_transition"] else rule_types
  let rule_types := if t.typeMemberChecked then rule_types ++ ["type_member"] else rule_types
  let rule_types := if t.typeChangeChecked then rule_types ++ ["type_change"] else rule_types
  rule_types

/-- Embedding of the `max_results` accumulation in `TERuleQueryTab.run`:
starting from zero, each checked kind adds the policy's count for that
kind. -/
def TERuleQueryTab.run_max_results (t : TERuleQueryTab) (p : PolicyCounts) : Nat :=
  let m := 0
  let m := if t.allowChecked then m + p.allow_count else m
  let m := if t.auditallowChecked then m + p.auditallow_count else m
  let m := if t.neverallowChecked then m + p.neverallow_count else m
  let m := if t.dontauditChecked then m + p.dontaudit_count else m
  let m := if t.typeTransitionChecked then m + p.type_transition_count else m
  let m := if t.typeMemberChecked then m + p.type_member_count else m
  let m := if t.typeChangeChecked then m + p.type_change_count else m
  m

/-- Embedding of the criteria-assignment part of `TERuleQueryTab.run`
(lines 277–313): the computed `rule_types` list and the four flag
checkboxes are assigned to the query; the function also returns the
computed `max_results` estimate (used afterwards only for the broad-query
warning dialog, which is GUI-only). -/
def TERuleQueryTab.run (t : TERuleQueryTab) (p : PolicyCounts) :
    TERuleQueryTab × Nat :=
  let q := { t.query with
      ruletype := t.run_rule_types,
      source_indirect := t.sourceIndirectChecked,
      target_indirect := t.targetIndirectChecked,
      perms_equal := t.permsEqualChecked,
      boolean_equal := t.boolsEqualChecked }
  ({ t with query := q }, t.run_max_results p)

/-- The seven rule kinds in the fixed order `run` tests their checkboxes. -/
def ruleKindOrder : List String :=
  ["allow", "auditallow", "neverallow", "dontaudit",
   "type_transition", "type_member", "type_change"]

/-- Whether the checkbox for a given rule kind is checked on the tab. -/
def TERuleQueryTab.kindChecked (t : TERuleQueryTab) (k : String) : Bool :=
  if k == "allow" then t.allowChecked
  else if k == "auditallow" then t.auditallowChecked
  else if k == "neverallow" then t.neverallowChecked
  else if k == "dontaudit" then t.dontauditChecked
  else if k == "type_transition" then t.typeTransitionChecked
  else if k == "type_member" then t.typeMemberChecked
  else if k == "type_change" then t.typeChangeChecked
  else false

/-- The policy's rule count for a given kind name. -/
def PolicyCounts.countOf (p : PolicyCounts) (k : String) : Nat :=
  if k == "allow" then p.allow_count
  else if k == "auditallow" then p.auditallow_count
  else if k == "neverallow" then p.neverallow_count
  else if k == "dontaudit" then p.dontaudit_count
  else if k == "type_transition" then p.type_transition_count
  else if k == "type_member" then p.type_member_count
  else if k == "type_change" then p.type_change_count
  else 0

/-- Observable effects of one `ResultsUpdater.update` execution: every
assignment made to `table_results_model.resultlist` (in order), the
strings emitted on the `raw_line` signal, the rule count written to the
log, and the number of `finished` signal emissions. -/
structure UpdateOutcome where
  resultAssignments : List (List TERule)
  rawLines : List String
  loggedCount : Nat
  finishedEmits : Nat
  deriving DecidableEq, Repr

/-- Embedding of the `for counter, item in enumerate(..., start=1)` loop
body of `ResultsUpdater.update` (lines 380–390): each drawn item is
appended to `results` and emitted on `raw_line`; then the interruption
flag is checked — `interrupted k` models
`QThread.currentThread().isInterruptionRequested()` as observed at the
check following the `k`-th consumed item — and on `true` the loop breaks
before drawing another rule (the `counter % 10` branch only yields the
thread and has no observable effect here).  Returns the accumulated
results, the emitted lines, and the final value of `counter`. -/
def updateLoop (interrupted : Nat → Bool) :
    List TERule → Nat → List TERule × List String × Nat
  | [], counter => ([], [], counter)
  | item :: rest, counter =>
    let c := counter + 1
    if interrupted c then ([item], [TERule.str item], c)
    else
      let r := updateLoop interrupted rest c
      (item :: r.1, TERule.str item :: r.2.1, r.2.2)

/-- Embedding of `ResultsUpdater.update` (lines 375–397): reset the
model, run the loop over the query's result stream starting from
`counter = 0`, then assign the accumulated list to
`table_results_model.resultlist` once, log
`"{0} type enforcement rule(s) found."` with the final counter, and emit
`finished` once. -/
def ResultsUpdater.update (interrupted : Nat → Bool)
    (stream : List TERule) : UpdateOutcome :=
  let r := updateLoop interrupted stream 0
  { resultAssignments := [r.1]
    rawLines := r.2.1
    loggedCount := r.2.2
    finishedEmits := 1 }

/-- The single list an update outcome published to the results model. -/
def UpdateOutcome.materialized (o : UpdateOutcome) : List TERule :=
  o.resultAssignments.headD []

/-- A concrete five-rule stream (the spec's fixture rules plus two more),
used for concrete evaluations of the update loop. -/
def demoRules : List TERule :=
  [⟨"allow", "httpd_t", "var_log_t", "file", ["read", "write"], none, []⟩,
   ⟨"allow", "httpd_t", "etc_t", "file", ["read"], none, []⟩,
   ⟨"allow", "sshd_t", "var_log_t", "file", ["read"], none, []⟩,
   ⟨"type_transition", "init_t", "httpd_exec_t", "process", [], some "httpd_t", []⟩,
   ⟨"allow", "sshd_t", "etc_t", "file", ["read"], none, ["ssh_sysadm_login"]⟩]

/-- The results accumulated by the update loop are always the prefix of
the stream of their own length: the loop draws rules strictly in stream
order and stops without skipping. -/
theorem updateLoop_take (f : Nat → Bool) (l : List TERule) (c : Nat) :
    (updateLoop f l c).1 = l.take (updateLoop f l c).1.length := by
  induction l generalizing c with
  | nil => simp [updateLoop]
  | cons item rest ih =>
    simp only [updateLoop]
    by_cases h : f (c + 1)
    · simp [h]
    · simpa [h] using ih (c + 1)

/-- The final `counter` value equals the starting counter plus the number
of consumed items. -/
theorem updateLoop_counter (f : Nat → Bool) (l : List TERule) (c : Nat) :
    (updateLoop f l c).2.2 = c + (updateLoop f l c).1.length := by
  induction l generalizing c with
  | nil => simp [updateLoop]
  | cons item rest ih =>
    simp only [updateLoop]
    by_cases h : f (c + 1)
    · simp [h]
    · simp only [h]
      simp only [Bool.false_eq_true, if_false, List.length_cons]
      rw [ih (c + 1)]
      omega

/-- One `raw_line` emission per consumed rule, in order. -/
theorem updateLoop_lines (f : Nat → Bool) (l : List TERule) (c : Nat) :
    (updateLoop f l c).2.1 = (updateLoop f l c).1.map TERule.str := by
  induction l generalizing c with
  | nil => simp [updateLoop]
  | cons item rest ih =>
    simp only [updateLoop]
    by_cases h : f (c + 1)
    · simp [h]
    · simpa [h] using ih (c + 1)

/-- If the interruption flag is set at every check past `N`, the loop
started at counter `c ≤ N` consumes at most `N + 1 - c` items: at most
one item is drawn after the request becomes observable. -/
theorem updateLoop_length_le (f : Nat → Bool) (N : Nat)
    (hreq : ∀ k, N < k → f k = true) (l : List TERule) (c : Nat) (hc : c ≤ N) :
    (updateLoop f l c).1.length ≤ N + 1 - c := by
  induction l generalizing c with
  | nil => simp [updateLoop]
  | cons item rest ih =>
    simp only [updateLoop]
    by_cases h : f (c + 1)
    · simp only [h, if_true, List.length_cons, List.length_nil]
      omega
    · have hcN : c + 1 ≤ N := by
        by_contra hcon
        exact h (hreq (c + 1) (by omega))
      simp only [h, Bool.false_eq_true, if_false, List.length_cons]
      have := ih (c + 1) hcN
      omega

/-- With the interruption flag never set, the loop consumes the entire
stream, emits every line, and the counter advances by the full length. -/
theorem updateLoop_no_interrupt (l : List TERule) (c : Nat) :
    updateLoop (fun _ => false) l c = (l, l.map TERule.str, c + l.length) := by
  induction l generalizing c with
  | nil => simp [updateLoop]
  | cons item rest ih =>
    simp only [updateLoop, Bool.false_eq_true, if_false]
    rw [ih (c + 1)]
    simp
    omega

/-- C2. Cancellation: if the interruption request is observable at every
check after `N` elements have been consumed, then the materialized result
list has length at most `N + 1` (at most the one element in flight beyond
`N`), it is exactly the prefix of the stream of that length — so no
further rule is drawn from the underlying scan once the stop request is
observed — and it is published as the model's single assignment.  The
stop check is evaluated between successive elements by construction of
`updateLoop`. -/
theorem update_cancellation (stream : List TERule) (interrupted : Nat → Bool)
    (N : Nat) (hreq : ∀ k, N < k → interrupted k = true) :
    (ResultsUpdater.update interrupted stream).materialized.length ≤ N + 1 ∧
    (ResultsUpdater.update interrupted stream).materialized =
      stream.take (ResultsUpdater.update interrupted stream).materialized.length ∧
    (ResultsUpdater.update interrupted stream).resultAssignments =
      [(ResultsUpdater.update interrupted stream).materialized] := by
  refine ⟨?_, ?_, rfl⟩
  · have := updateLoop_length_le interrupted N hreq stream 0 (Nat.zero_le N)
    simpa [ResultsUpdater.update, UpdateOutcome.materialized] using this
  · have := updateLoop_take interrupted stream 0
    simpa [ResultsUpdater.update, UpdateOutcome.materialized] using this

/-- Witness for the C2 theorem: on the concrete five-rule stream with the
interruption request observable from the third check on, at most three
rules are materialized and they form a prefix of the stream. -/
theorem update_cancellation_witness :
    (ResultsUpdater.update (fun k => decide (2 < k)) demoRules).materialized.length ≤ 2 + 1 ∧
    (ResultsUpdater.update (fun k => decide (2 < k)) demoRules).materialized =
      demoRules.take
        (ResultsUpdater.update (fun k => decide (2 < k)) demoRules).materialized.length ∧
    (ResultsUpdater.update (fun k => decide (2 < k)) demoRules).resultAssignments =
      [(ResultsUpdater.update (fun k => decide (2 < k)) demoRules).materialized] :=
  update_cancellation demoRules (fun k => decide (2 < k)) 2
    (fun _ hk => decide_eq_true hk)

/-- C10. Every run of `ResultsUpdater.update` terminates (the embedding
is a total function over the finite stream) and publishes atomically
exactly once: the result model receives a single assignment, its content
is precisely the prefix of the stream consumed by the loop, the logged
count equals the length of that prefix, one raw line was emitted per
published rule, and the `finished` signal is emitted exactly once —
whether the stream was exhausted or the loop was interrupted. -/
theorem update_publishes_exactly_once (interrupted : Nat → Bool)
    (stream : List TERule) :
    (ResultsUpdater.update interrupted stream).resultAssignments =
      [(ResultsUpdater.update interrupted stream).materialized] ∧
    (ResultsUpdater.update interrupted stream).materialized =
      stream.take (ResultsUpdater.update interrupted stream).materialized.length ∧
    (ResultsUpdater.update interrupted stream).loggedCount =
      (ResultsUpdater.update interrupted stream).materialized.length ∧
    (ResultsUpdater.update interrupted stream).rawLines =
      (ResultsUpdater.update interrupted stream).materialized.map TERule.str ∧
    (ResultsUpdater.update interrupted stream).finishedEmits = 1 := by
  refine ⟨rfl, ?_, ?_, ?_, rfl⟩
  · have := updateLoop_take interrupted stream 0
    simpa [ResultsUpdater.update, UpdateOutcome.materialized] using this
  · have := updateLoop_counter interrupted stream 0
    simpa [ResultsUpdater.update, UpdateOutcome.materialized] using this
  · have := updateLoop_lines interrupted stream 0
    simpa [ResultsUpdater.update, UpdateOutcome.materialized] using this

/-- C6. An uncancelled execution materializes exactly the rules produced
by the query's result stream: the single published list is the stream
itself, the stream is an order-preserving selection (a sublist) of the
policy's rules in native enumeration order, and a repeated scan with the
same criteria on the same rules yields the identical outcome. -/
theorem update_uncancelled_exact_and_ordered (rmatch : String → String → Bool)
    (expand : String → List String) (q : TERuleQuery) (rules : List TERule) :
    (ResultsUpdater.update (fun _ => false)
        (q.results rmatch expand rules)).resultAssignments =
      [q.results rmatch expand rules] ∧
    List.Sublist (q.results rmatch expand rules) rules ∧
    ResultsUpdater.update (fun _ => false) (q.results rmatch expand rules) =
      ResultsUpdater.update (fun _ => false) (q.results rmatch expand rules) := by
  refine ⟨?_, ?_, rfl⟩
  · simp [ResultsUpdater.update, updateLoop_no_interrupt]
  · exact List.filter_sublist rules

/-- C3. Assigning a malformed pattern to a criterion fails at assignment
time with the field-specific "pattern error", and the query's previously
accepted configuration for that criterion is retained unchanged — the
matcher is not updated.  Stated for the source and target handlers (whose
failing branch leaves the whole query untouched) and for the default
handler (whose failing branch leaves the default pattern, the source and
the target criteria untouched). -/
theorem criterion_error_preserves_state (valid : String → Bool)
    (t : TERuleQueryTab)
    (hs : t.query.source_regex = true) (hsv : valid t.sourceText = false)
    (hta : t.query.target_regex = true) (htv : valid t.targetText = false)
    (hd : t.defaultRegexChecked = true) (hdv : valid t.defaultText = false) :
    ((t.set_source valid).query = t.query ∧
     (t.set_source valid).sourceError =
       some ("Error: " ++ ("pattern error: " ++ t.sourceText))) ∧
    ((t.set_target valid).query = t.query ∧
     (t.set_target valid).targetError =
       some ("Error: " ++ ("pattern error: " ++ t.targetText))) ∧
    ((t.set_default_type valid).query.default = t.query.default ∧
     (t.set_default_type valid).query.source = t.query.source ∧
     (t.set_default_type valid).query.target = t.query.target ∧
     (t.set_default_type valid).defaultError =
       some ("Error: " ++ ("pattern error: " ++ t.defaultText))) := by
  refine ⟨⟨?_, ?_⟩, ⟨?_, ?_⟩, ?_, ?_, ?_, ?_⟩ <;>
    simp [TERuleQueryTab.set_source, TERuleQueryTab.set_target,
      TERuleQueryTab.set_default_type, TERuleQuery.setSource,
      TERuleQuery.setTarget, TERuleQuery.setDefault, hs, hsv, hta, htv, hd, hdv]

/-- A concrete tab state in which all three pattern fields hold the text
"(" with regex mode enabled everywhere; under the demo compiler (which
rejects exactly "(") every assignment is malformed. -/
def errorTab : TERuleQueryTab where
  query :=
    { source := "httpd_t", source_regex := true, source_indirect := true
      target := "", target_regex := true, target_indirect := true
      default := "", default_regex := true
      ruletype := [], tclass := [], perms := [], perms_equal := false
      boolean := [], boolean_equal := false }
  sourceText := "("
  targetText := "("
  defaultText := "("
  sourceRegexChecked := true
  targetRegexChecked := true
  defaultRegexChecked := true
  allowChecked := true
  auditallowChecked := false
  neverallowChecked := false
  dontauditChecked := false
  typeTransitionChecked := false
  typeMemberChecked := false
  typeChangeChecked := false
  sourceIndirectChecked := true
  targetIndirectChecked := true
  permsEqualChecked := false
  boolsEqualChecked := false
  sourceError := none
  targetError := none
  defaultError := none

/-- The demo pattern compiler: it rejects exactly the pattern "(" (an
unparsable regular expression) and accepts everything else. -/
def demoValid : String → Bool := fun s => !(s == "(")

/-- Witness for the C3 theorem: on `errorTab`, all three malformed
assignments report their field error and preserve the criteria. -/
theorem criterion_error_preserves_state_witness :
    ((errorTab.set_source demoValid).query = errorTab.query ∧
     (errorTab.set_source demoValid).sourceError =
       some ("Error: " ++ ("pattern error: " ++ errorTab.sourceText))) ∧
    ((errorTab.set_target demoValid).query = errorTab.query ∧
     (errorTab.set_target demoValid).targetError =
       some ("Error: " ++ ("pattern error: " ++ errorTab.targetText))) ∧
    ((errorTab.set_default_type demoValid).query.default = errorTab.query.default ∧
     (errorTab.set_default_type demoValid).query.source = errorTab.query.source ∧
     (errorTab.set_default_type demoValid).query.target = errorTab.query.target ∧
     (errorTab.set_default_type demoValid).defaultError =
       some ("Error: " ++ ("pattern error: " ++ errorTab.defaultText))) :=
  criterion_error_preserves_state demoValid errorTab
    (by rfl) (by rfl) (by rfl) (by rfl) (by rfl) (by rfl)

/-- C9. Toggling a regex mode flag assigns the flag to the query and
immediately re-validates the currently entered pattern text under the new
mode, with no new text input: a text the literal mode accepts (the
`set_source`/`set_target` conjuncts) is reported as a pattern error right
after enabling regex mode, while the previously accepted matcher value is
retained; toggling the flag off re-assigns the text successfully under
literal mode.  Stated for all three regex-flag handlers: the source
(`set_source_regex`), the target (`set_target_regex`) and the default
(`set_default_regex`). -/
theorem regex_toggle_revalidates_text (valid : String → Bool)
    (t : TERuleQueryTab)
    (h0 : t.query.source_regex = false) (h0t : t.query.target_regex = false)
    (hsv : valid t.sourceText = false) (htv : valid t.targetText = false)
    (hdv : valid t.defaultText = false) :
    (t.set_source valid).query.source = t.sourceText ∧
    (t.set_source_regex valid true).query.source_regex = true ∧
    (t.set_source_regex valid true).sourceError =
      some ("Error: " ++ ("pattern error: " ++ t.sourceText)) ∧
    (t.set_source_regex valid true).query.source = t.query.source ∧
    (t.set_source_regex valid false).query.source_regex = false ∧
    (t.set_source_regex valid false).query.source = t.sourceText ∧
    (t.set_source_regex valid false).sourceError = none ∧
    (t.set_target valid).query.target = t.targetText ∧
    (t.set_target_regex valid true).query.target_regex = true ∧
    (t.set_target_regex valid true).targetError =
      some ("Error: " ++ ("pattern error: " ++ t.targetText)) ∧
    (t.set_target_regex valid true).query.target = t.query.target ∧
    (t.set_target_regex valid false).query.target_regex = false ∧
    (t.set_target_regex valid false).query.target = t.targetText ∧
    (t.set_target_regex valid false).targetError = none ∧
    (t.set_default_regex valid true).query.default_regex = true ∧
    (t.set_default_regex valid true).defaultError =
      some ("Error: " ++ ("pattern error: " ++ t.defaultText)) ∧
    (t.set_default_regex valid true).query.default = t.query.default ∧
    (t.set_default_regex valid false).query.default_regex = false ∧
    (t.set_default_regex valid false).query.default = t.defaultText ∧
    (t.set_default_regex valid false).defaultError = none := by
  refine ⟨?_, ?_, ?_, ?_, ?_, ?_, ?_, ?_, ?_, ?_,
    ?_, ?_, ?_, ?_, ?_, ?_, ?_, ?_, ?_, ?_⟩ <;>
    simp [TERuleQueryTab.set_source, TERuleQueryTab.set_source_regex,
      TERuleQueryTab.set_target, TERuleQueryTab.set_target_regex,
      TERuleQueryTab.set_default_regex, TERuleQueryTab.set_default_type,
      TERuleQuery.setSource, TERuleQuery.setTarget, TERuleQuery.setDefault,
      h0, h0t, hsv, htv, hdv]

/-- A concrete tab whose pattern texts were accepted in literal mode (all
regex flags off) but are rejected by the demo compiler. -/
def literalTab : TERuleQueryTab where
  query :=
    { source := "(", source_regex := false, source_indirect := true
      target := "(", target_regex := false, target_indirect := true
      default := "(", default_regex := false
      ruletype := ["allow"], tclass := [], perms := [], perms_equal := false
      boolean := [], boolean_equal := false }
  sourceText := "("
  targetText := "("
  defaultText := "("
  sourceRegexChecked := false
  targetRegexChecked := false
  defaultRegexChecked := false
  allowChecked := true
  auditallowChecked := true
  neverallowChecked := false
  dontauditChecked := false
  typeTransitionChecked := true
  typeMemberChecked := false
  typeChangeChecked := false
  sourceIndirectChecked := true
  targetIndirectChecked := false
  permsEqualChecked := false
  boolsEqualChecked := true
  sourceError := none
  targetError := none
  defaultError := none

/-- Witness for the C9 theorem: on `literalTab`, the literally-accepted
pattern "(" fails immediately after enabling regex mode on the source,
the target and the default field, without any new text input. -/
theorem regex_toggle_revalidates_text_witness :
    (literalTab.set_source demoValid).query.source = literalTab.sourceText ∧
    (literalTab.set_source_regex demoValid true).query.source_regex = true ∧
    (literalTab.set_source_regex demoValid true).sourceError =
      some ("Error: " ++ ("pattern error: " ++ literalTab.sourceText)) ∧
    (literalTab.set_source_regex demoValid true).query.source = literalTab.query.source ∧
    (literalTab.set_source_regex demoValid false).query.source_regex = false ∧
    (literalTab.set_source_regex demoValid false).query.source = literalTab.sourceText ∧
    (literalTab.set_source_regex demoValid false).sourceError = none ∧
    (literalTab.set_target demoValid).query.target = literalTab.targetText ∧
    (literalTab.set_target_regex demoValid true).query.target_regex = true ∧
    (literalTab.set_target_regex demoValid true).targetError =
      some ("Error: " ++ ("pattern error: " ++ literalTab.targetText)) ∧
    (literalTab.set_target_regex demoValid true).query.target = literalTab.query.target ∧
    (literalTab.set_target_regex demoValid false).query.target_regex = false ∧
    (literalTab.set_target_regex demoValid false).query.target = literalTab.targetText ∧
    (literalTab.set_target_regex demoValid false).targetError = none ∧
    (literalTab.set_default_regex demoValid true).query.default_regex = true ∧
    (literalTab.set_default_regex demoValid true).defaultError =
      some ("Error: " ++ ("pattern error: " ++ literalTab.defaultText)) ∧
    (literalTab.set_default_regex demoValid true).query.default = literalTab.query.default ∧
    (literalTab.set_default_regex demoValid false).query.default_regex = false ∧
    (literalTab.set_default_regex demoValid false).query.default = literalTab.defaultText ∧
    (literalTab.set_default_regex demoValid false).defaultError = none :=
  regex_toggle_revalidates_text demoValid literalTab
    (by rfl) (by rfl) (by rfl) (by rfl) (by rfl)

/-- The accumulated `rule_types` list equals the checked kinds filtered
out of the fixed seven-kind order. -/
theorem run_rule_types_eq_filter (t : TERuleQueryTab) :
    t.run_rule_types = ruleKindOrder.filter t.kindChecked := by
  cases h1 : t.allowChecked <;> cases h2 : t.auditallowChecked <;>
  cases h3 : t.neverallowChecked <;> cases h4 : t.dontauditChecked <;>
  cases h5 : t.typeTransitionChecked <;> cases h6 : t.typeMemberChecked <;>
  cases h7 : t.typeChangeChecked <;>
    simp [TERuleQueryTab.run_rule_types, ruleKindOrder,
      TERuleQueryTab.kindChecked, h1, h2, h3, h4, h5, h6, h7]

/-- The accumulated `max_results` value equals the sum of the per-kind
counts over the checked kinds. -/
theorem run_max_results_eq_sum (t : TERuleQueryTab) (p : PolicyCounts) :
    t.run_max_results p = ((ruleKindOrder.filter t.kindChecked).map p.countOf).sum := by
  cases h1 : t.allowChecked <;> cases h2 : t.auditallowChecked <;>
  cases h3 : t.neverallowChecked <;> cases h4 : t.dontauditChecked <;>
  cases h5 : t.typeTransitionChecked <;> cases h6 : t.typeMemberChecked <;>
  cases h7 : t.typeChangeChecked <;>
    simp [TERuleQueryTab.run_max_results, ruleKindOrder,
      TERuleQueryTab.kindChecked, PolicyCounts.countOf,
      h1, h2, h3, h4, h5, h6, h7] <;>
    omega

/-- C8. `run` assigns to the query's ruletype criterion exactly the list
of the seven rule kinds whose checkbox is checked, in the fixed order
allow, auditallow, neverallow, dontaudit, type_transition, type_member,
type_change, and the computed maximum result estimate equals the sum of
the policy's per-kind rule counts over exactly those checked kinds. -/
theorem run_assigns_checked_ruletypes (t : TERuleQueryTab) (p : PolicyCounts) :
    (t.run p).1.query.ruletype = ruleKindOrder.filter t.kindChecked ∧
    (t.run p).2 = ((ruleKindOrder.filter t.kindChecked).map p.countOf).sum := by
  constructor
  · show t.run_rule_types = ruleKindOrder.filter t.kindChecked
    exact run_rule_types_eq_filter t
  · show t.run_max_results p = ((ruleKindOrder.filter t.kindChecked).map p.countOf).sum
    exact run_max_results_eq_sum t p

end Apol
